import Mathlib

/-!
# Verification of the resume_web chat-api request pipeline

Shallow embedding of the algorithmic core of the `resume_web` repository
(`chat-api-service` and `chat-api-lambda`), with theorems settling the
frozen specification claims.

Embedded components (each definition names the Python source it mirrors):
* `InMemoryRateLimiter.check_limit` / `get_retry_after`
  (`chat-api-service/app/rate_limiter.py`)
* `RetrievalService.retrieve` / `_compute_related_slugs` and
  `is_ui_visible_item` (`chat-api-service/app/retrieval.py`), plus the
  lambda variant with `validate_slugs`
  (`chat-api-lambda/src/retrieval.py`, `src/opensearch_client.py`)
* the streaming `assistant.text` field extractor
  (`chat-api-service/app/anthropic_client.py`, `answer_stream`)
* the plain-text chips fallback
  (`chat-api-service/app/agents/response.py`, `_extract_chips_from_text`)
* the output sanitizers
  (`chat-api-service/app/pipeline.py`, `_sanitize_and_validate_response`;
  `chat-api-service/app/agents/validator.py`, `ValidatorAgent.run`)

Python `float` timestamps and scores are modelled as `ℚ` (the code only
compares and subtracts them, which is order-isomorphic to the float
behaviour on the ranges involved); machine integers as `Nat`/`Int`
(Python ints are unbounded); Python `dict`/JSON values as an explicit
`Json` inductive with Python truthiness.
-/

namespace ResumeWeb

/-! ## Rate limiter (`app/rate_limiter.py`) -/

/-- `RateLimitConfig` (rate_limiter.py lines 22-37): limits are Python ints,
window lengths are seconds (ints in the source; kept as `ℚ` here because they
are only ever compared against float time differences). -/
structure RateLimitConfig where
  daily_limit : Nat := 100
  burst_limit : Nat := 10
  burst_window_seconds : ℚ := 60
  global_burst_limit : Nat := 50
  global_burst_window_seconds : ℚ := 60
  conversation_limit_per_ip : Nat := 20
  conversation_window_seconds : ℚ := 3600
deriving DecidableEq

/-- `RateLimitState` (rate_limiter.py lines 40-53): per-IP record. The Python
`set[str]` of conversation ids is modelled as a `Finset String`. -/
structure RateLimitState where
  daily_count : Nat := 0
  daily_window_start : String := ""
  burst_requests : List ℚ := []
  conversation_ids : Finset String := ∅
  conversation_window_start : ℚ := 0
deriving DecidableEq

/-- Fresh per-IP state, as produced by `defaultdict(RateLimitState)`. -/
def initialRateLimitState : RateLimitState := {}

/-- The limiter's whole mutable state: the per-IP `defaultdict` (modelled as a
total function whose default is `initialRateLimitState`) and the shared global
burst timestamp list (rate_limiter.py lines 66-70). -/
structure LimiterState where
  state : String → RateLimitState
  global_burst : List ℚ

/-- Limiter state at construction time (`InMemoryRateLimiter.__init__`). -/
def initialLimiter : LimiterState :=
  { state := fun _ => initialRateLimitState, global_burst := [] }

/-- Gate 1 preamble (rate_limiter.py lines 94-97): reset the daily counter when
the stored window marker differs from today's UTC date string. -/
def resetDaily (today : String) (st : RateLimitState) : RateLimitState :=
  if st.daily_window_start ≠ today then
    { st with daily_count := 0, daily_window_start := today }
  else st

/-- Gate 2 preamble (rate_limiter.py lines 103-105): evict per-IP burst
timestamps older than the burst window. -/
def pruneBurst (cfg : RateLimitConfig) (now : ℚ) (st : RateLimitState) : RateLimitState :=
  { st with burst_requests :=
      st.burst_requests.filter (fun ts => now - ts < cfg.burst_window_seconds) }

/-- Gate 4 preamble (rate_limiter.py lines 118-121): clear the conversation-id
set when its window has expired. -/
def resetConversationWindow (cfg : RateLimitConfig) (now : ℚ) (st : RateLimitState) :
    RateLimitState :=
  if cfg.conversation_window_seconds < now - st.conversation_window_start then
    { st with conversation_ids := ∅, conversation_window_start := now }
  else st

/-- On success (rate_limiter.py lines 129-132): increment the daily counter and
append `now` to the per-IP burst list. -/
def recordAdmit (now : ℚ) (st : RateLimitState) : RateLimitState :=
  { st with daily_count := st.daily_count + 1, burst_requests := st.burst_requests ++ [now] }

/-- `InMemoryRateLimiter.check_limit` (rate_limiter.py lines 72-134).

Explicit-state translation: `now` is `time.time()`, `today` is the UTC
`YYYY-MM-DD` string, `conversationId = ""` models a `None`/empty (falsy) id.
Python mutates `state` and `self._global_burst` in place, so the evictions and
the daily reset performed before a denial persist; the returned `LimiterState`
reflects exactly the mutations executed up to each `return`. -/
def checkLimit (cfg : RateLimitConfig) (s : LimiterState) (now : ℚ) (today : String)
    (ip : String) (conversationId : String) : (Bool × String) × LimiterState :=
  let st1 := resetDaily today (s.state ip)
  -- 1. Check daily limit
  if cfg.daily_limit ≤ st1.daily_count then
    ((false, "daily"), { s with state := Function.update s.state ip st1 })
  else
    -- 2. Check per-IP burst limit (sliding window)
    let st2 := pruneBurst cfg now st1
    if cfg.burst_limit ≤ st2.burst_requests.length then
      ((false, "burst"), { s with state := Function.update s.state ip st2 })
    else
      -- 3. Check global burst limit
      let g := s.global_burst.filter (fun ts => now - ts < cfg.global_burst_window_seconds)
      if cfg.global_burst_limit ≤ g.length then
        ((false, "global"), { state := Function.update s.state ip st2, global_burst := g })
      else
        -- 4. Check conversation ID limit
        if conversationId ≠ "" then
          let st3 := resetConversationWindow cfg now st2
          if conversationId ∉ st3.conversation_ids then
            if cfg.conversation_limit_per_ip ≤ st3.conversation_ids.card then
              ((false, "conversation"),
                { state := Function.update s.state ip st3, global_burst := g })
            else
              let st4 := { st3 with
                conversation_ids := insert conversationId st3.conversation_ids }
              ((true, "ok"),
                { state := Function.update s.state ip (recordAdmit now st4),
                  global_burst := g ++ [now] })
          else
            ((true, "ok"),
              { state := Function.update s.state ip (recordAdmit now st3),
                global_burst := g ++ [now] })
        else
          ((true, "ok"),
            { state := Function.update s.state ip (recordAdmit now st2),
              global_burst := g ++ [now] })

/-- Calendar helper for `get_retry_after`: days in a Gregorian month, as used by
Python `datetime`'s day-of-month validation. -/
def daysInMonth (year month : Nat) : Nat :=
  if month = 2 then
    if year % 4 = 0 ∧ (year % 100 ≠ 0 ∨ year % 400 = 0) then 29 else 28
  else if month = 4 ∨ month = 6 ∨ month = 9 ∨ month = 11 then 30
  else 31

/-- A UTC instant for `get_retry_after`: calendar date plus seconds elapsed
since that day's UTC midnight (`0 ≤ secOfDay < 86400`). -/
structure UtcInstant where
  year : Nat
  month : Nat
  day : Nat
  secOfDay : ℚ

/-- `n` back-to-back `check_limit` calls at the same instant `now`, same UTC
day `today`, same client `ip` and conversation id `cid`, starting from a fresh
limiter: the state after the `n`-th call. -/
def repeatCheck (cfg : RateLimitConfig) (now : ℚ) (today ip cid : String) :
    Nat → LimiterState
  | 0 => initialLimiter
  | n + 1 => (checkLimit cfg (repeatCheck cfg now today ip cid n) now today ip cid).2

/-- The per-IP state reached after `i` admitted same-instant calls. -/
def canonicalState (now : ℚ) (today : String) (i : Nat) : RateLimitState :=
  { daily_count := i
    daily_window_start := if i = 0 then "" else today
    burst_requests := List.replicate i now
    conversation_ids := ∅
    conversation_window_start := 0 }

lemma resetDaily_canonical (now : ℚ) (today : String) (i : Nat) :
    resetDaily today (canonicalState now today i)
      = { daily_count := i, daily_window_start := today,
          burst_requests := List.replicate i now,
          conversation_ids := ∅, conversation_window_start := 0 } := by
  unfold resetDaily canonicalState
  rcases eq_or_ne i 0 with h0 | h0 <;> split_ifs with h <;> simp_all

lemma checkLimit_canonical_step (cfg : RateLimitConfig) (s : LimiterState) (now : ℚ)
    (today ip : String) (i : Nat)
    (hs : s.state ip = canonicalState now today i)
    (hgb : s.global_burst = List.replicate i now)
    (hi : i < cfg.burst_limit)
    (hd : cfg.burst_limit < cfg.daily_limit)
    (hg : cfg.burst_limit < cfg.global_burst_limit)
    (hw : 0 < cfg.burst_window_seconds)
    (hgw : 0 < cfg.global_burst_window_seconds) :
    checkLimit cfg s now today ip ""
      = ((true, "ok"),
          { state := Function.update s.state ip (canonicalState now today (i + 1)),
            global_burst := List.replicate (i + 1) now }) := by
  have hfb : (List.replicate i now).filter
      (fun ts => decide (now - ts < cfg.burst_window_seconds)) = List.replicate i now := by
    refine List.filter_eq_self.mpr (fun a ha => ?_)
    rw [List.eq_of_mem_replicate ha]
    simpa using hw
  have hfg : (List.replicate i now).filter
      (fun ts => decide (now - ts < cfg.global_burst_window_seconds)) = List.replicate i now := by
    refine List.filter_eq_self.mpr (fun a ha => ?_)
    rw [List.eq_of_mem_replicate ha]
    simpa using hgw
  unfold checkLimit
  rw [hs, hgb, resetDaily_canonical]
  simp only [pruneBurst, recordAdmit]
  rw [if_neg (by simp; omega)]
  simp only [hfb]
  rw [if_neg (by simp [List.length_replicate]; omega)]
  simp only [hfg]
  rw [if_neg (by simp [List.length_replicate]; omega)]
  rw [if_neg (by simp)]
  simp [canonicalState, List.replicate_succ']

/-- After `i ≤ burst_limit` same-instant calls with an empty conversation id,
the fresh limiter's state is exactly `canonicalState` for the client and
`i` copies of `now` in the global list. -/
lemma repeatCheck_spec (cfg : RateLimitConfig) (now : ℚ) (today ip : String)
    (hd : cfg.burst_limit < cfg.daily_limit)
    (hg : cfg.burst_limit < cfg.global_burst_limit)
    (hw : 0 < cfg.burst_window_seconds)
    (hgw : 0 < cfg.global_burst_window_seconds) :
    ∀ i, i ≤ cfg.burst_limit →
      (repeatCheck cfg now today ip "" i).state ip = canonicalState now today i
        ∧ (repeatCheck cfg now today ip "" i).global_burst = List.replicate i now := by
  intro i
  induction i with
  | zero => intro _; exact ⟨rfl, rfl⟩
  | succ n ih =>
    intro hn
    obtain ⟨hs, hgb⟩ := ih (by omega)
    rw [repeatCheck, checkLimit_canonical_step cfg _ now today ip n hs hgb (by omega) hd hg hw hgw]
    exact ⟨Function.update_same ip _ _, rfl⟩

/-- `InMemoryRateLimiter.get_retry_after` (rate_limiter.py lines 136-152).

For `"daily"` the source builds today's midnight and then calls
`next_midnight.replace(day=now.day + 1)`; `datetime.replace` raises
`ValueError` whenever `day + 1` exceeds the length of the current month, which
the `Except` error branch models. On success the value is
`int((next_midnight - now).total_seconds()) = ⌊86400 - secOfDay⌋`
(the difference is positive, so `int` truncation is `⌊·⌋`). -/
def getRetryAfter (cfg : RateLimitConfig) (now : UtcInstant) (reason : String) :
    Except String ℤ :=
  if reason = "daily" then
    if daysInMonth now.year now.month < now.day + 1 then
      Except.error "ValueError: day is out of range for month"
    else
      Except.ok ⌊(86400 : ℚ) - now.secOfDay⌋
  else if reason = "burst" then Except.ok ⌊cfg.burst_window_seconds⌋
  else if reason = "global" then Except.ok ⌊cfg.global_burst_window_seconds⌋
  else if reason = "conversation" then Except.ok ⌊cfg.conversation_window_seconds⌋
  else Except.ok 60

@[simp] lemma resetDaily_conversation_ids (today : String) (st : RateLimitState) :
    (resetDaily today st).conversation_ids = st.conversation_ids := by
  unfold resetDaily; split <;> rfl

@[simp] lemma resetDaily_conversation_window_start (today : String) (st : RateLimitState) :
    (resetDaily today st).conversation_window_start = st.conversation_window_start := by
  unfold resetDaily; split <;> rfl

@[simp] lemma pruneBurst_conversation_ids (cfg : RateLimitConfig) (now : ℚ)
    (st : RateLimitState) : (pruneBurst cfg now st).conversation_ids = st.conversation_ids := rfl

@[simp] lemma pruneBurst_conversation_window_start (cfg : RateLimitConfig) (now : ℚ)
    (st : RateLimitState) :
    (pruneBurst cfg now st).conversation_window_start = st.conversation_window_start := rfl

@[simp] lemma recordAdmit_conversation_ids (now : ℚ) (st : RateLimitState) :
    (recordAdmit now st).conversation_ids = st.conversation_ids := rfl

lemma checkLimit_canonical_deny (cfg : RateLimitConfig) (s : LimiterState) (now : ℚ)
    (today ip : String)
    (hs : s.state ip = canonicalState now today cfg.burst_limit)
    (hd : cfg.burst_limit < cfg.daily_limit)
    (hw : 0 < cfg.burst_window_seconds) :
    checkLimit cfg s now today ip ""
      = ((false, "burst"),
          { s with state := (Function.update s.state ip
              ({ daily_count := cfg.burst_limit, daily_window_start := today,
                 burst_requests := List.replicate cfg.burst_limit now,
                 conversation_ids := ∅, conversation_window_start := 0 } : RateLimitState)) }) := by
  have hfb : (List.replicate cfg.burst_limit now).filter
      (fun ts => decide (now - ts < cfg.burst_window_seconds))
        = List.replicate cfg.burst_limit now := by
    refine List.filter_eq_self.mpr (fun a ha => ?_)
    rw [List.eq_of_mem_replicate ha]
    simpa using hw
  unfold checkLimit
  rw [hs, resetDaily_canonical]
  simp only [pruneBurst]
  rw [if_neg (by simp; omega)]
  simp only [hfb]
  rw [if_pos (by simp [List.length_replicate])]

lemma checkLimit_after_window (cfg : RateLimitConfig) (s : LimiterState)
    (now now' : ℚ) (today ip : String) (n : Nat)
    (hs : s.state ip
      = { daily_count := n, daily_window_start := today,
          burst_requests := List.replicate n now,
          conversation_ids := ∅, conversation_window_start := 0 })
    (hgb : s.global_burst = List.replicate n now)
    (helapsed : now + cfg.burst_window_seconds ≤ now')
    (hbl : 0 < cfg.burst_limit)
    (hd : n < cfg.daily_limit)
    (hg : n < cfg.global_burst_limit) :
    ((checkLimit cfg s now' today ip "").1).1 = true := by
  have hfb : (List.replicate n now).filter
      (fun ts => decide (now' - ts < cfg.burst_window_seconds)) = [] := by
    refine List.filter_eq_nil_iff.mpr (fun a ha => ?_)
    rw [List.eq_of_mem_replicate ha]
    simp only [decide_eq_true_eq, not_lt]
    linarith
  have hres : resetDaily today (s.state ip) = s.state ip := by
    rw [hs]; unfold resetDaily; simp
  have hglen : ((List.replicate n now).filter
      (fun ts => decide (now' - ts < cfg.global_burst_window_seconds))).length
        < cfg.global_burst_limit :=
    lt_of_le_of_lt (le_trans (List.length_filter_le _ _) (by simp)) hg
  unfold checkLimit
  rw [hres, hs]
  simp only [pruneBurst]
  rw [if_neg (by simp; omega)]
  simp only [hfb]
  rw [if_neg (by simp; omega)]
  rw [hgb]
  rw [if_neg (not_le_of_lt hglen)]
  rw [if_neg (by simp)]

/-- C6: starting from a fresh limiter, with the burst limit below the daily and
global caps and positive windows, the first `burst_limit` same-instant
`check_limit` calls from one client are all admitted, the next call at the same
instant is denied with reason `"burst"`, and any later call made once the burst
window has fully elapsed is admitted again. -/
theorem c6_per_client_burst_limit (cfg : RateLimitConfig) (now : ℚ) (today ip : String)
    (hN : 0 < cfg.burst_limit)
    (hd : cfg.burst_limit < cfg.daily_limit)
    (hg : cfg.burst_limit < cfg.global_burst_limit)
    (hw : 0 < cfg.burst_window_seconds)
    (hgw : 0 < cfg.global_burst_window_seconds) :
    (∀ i < cfg.burst_limit,
        (checkLimit cfg (repeatCheck cfg now today ip "" i) now today ip "").1 = (true, "ok"))
    ∧ (checkLimit cfg (repeatCheck cfg now today ip "" cfg.burst_limit) now today ip "").1
        = (false, "burst")
    ∧ ∀ now' : ℚ, now + cfg.burst_window_seconds ≤ now' →
        ((checkLimit cfg (repeatCheck cfg now today ip "" (cfg.burst_limit + 1))
            now' today ip "").1).1 = true := by
  have spec := repeatCheck_spec cfg now today ip hd hg hw hgw
  obtain ⟨hsN, hgbN⟩ := spec cfg.burst_limit le_rfl
  have hdeny := checkLimit_canonical_deny cfg _ now today ip hsN hd hw
  refine ⟨?_, ?_, ?_⟩
  · intro i hiN
    obtain ⟨hs, hgb⟩ := spec i (le_of_lt hiN)
    rw [checkLimit_canonical_step cfg _ now today ip i hs hgb hiN hd hg hw hgw]
  · rw [hdeny]
  · intro now' hnow'
    have hstep : repeatCheck cfg now today ip "" (cfg.burst_limit + 1)
        = ((checkLimit cfg (repeatCheck cfg now today ip "" cfg.burst_limit) now today ip "").2) :=
      rfl
    rw [hstep, hdeny]
    exact checkLimit_after_window cfg _ now now' today ip cfg.burst_limit
      (Function.update_same ip _ _) hgbN hnow' hN hd hg

theorem c6_per_client_burst_limit_witness :
    (0 < ({} : RateLimitConfig).burst_limit
      ∧ ({} : RateLimitConfig).burst_limit < ({} : RateLimitConfig).daily_limit)
    ∧ (checkLimit {} (repeatCheck {} 0 "2026-10-12" "203.0.113.7" ""
          ({} : RateLimitConfig).burst_limit) 0 "2026-10-12" "203.0.113.7" "").1
        = (false, "burst") :=
  ⟨⟨by decide, by decide⟩,
    (c6_per_client_burst_limit {} 0 "2026-10-12" "203.0.113.7"
      (by decide) (by decide) (by decide) (by decide) (by decide)).2.1⟩

/-- C9: `get_retry_after` for reason `"daily"` computes the seconds to the next
UTC midnight via `next_midnight.replace(day=now.day + 1)`; on the last day of a
month (e.g. 2026-01-31) `datetime.replace` raises `ValueError`, so the code
fails instead of returning the wait hint the claim (and the function's own
docstring) promise. On other days, and for the other reasons, the mapping is as
claimed (window lengths 60, 60, 3600 with the default config). -/
theorem c9_get_retry_after_month_end_bug :
    getRetryAfter {} ⟨2026, 1, 31, 43200⟩ "daily"
        = Except.error "ValueError: day is out of range for month"
    ∧ getRetryAfter {} ⟨2026, 1, 30, 43200⟩ "daily" = Except.ok 43200
    ∧ getRetryAfter {} ⟨2026, 1, 31, 0⟩ "burst" = Except.ok 60
    ∧ getRetryAfter {} ⟨2026, 1, 31, 0⟩ "global" = Except.ok 60
    ∧ getRetryAfter {} ⟨2026, 1, 31, 0⟩ "conversation" = Except.ok 3600 := by
  exact ⟨rfl, by norm_num [getRetryAfter, daysInMonth], rfl, rfl, rfl⟩

/-- C10: a `check_limit` call whose conversation id is already recorded in the
client's current (unexpired) conversation window is never denied with reason
`"conversation"`, even at the cap, and it does not change the recorded set of
conversation ids. -/
theorem c10_seen_conversation_never_denied (cfg : RateLimitConfig) (s : LimiterState)
    (now : ℚ) (today ip cid : String)
    (hcid : cid ≠ "")
    (hseen : cid ∈ (s.state ip).conversation_ids)
    (hwin : ¬ cfg.conversation_window_seconds < now - (s.state ip).conversation_window_start) :
    (checkLimit cfg s now today ip cid).1 ≠ (false, "conversation")
    ∧ ((checkLimit cfg s now today ip cid).2.state ip).conversation_ids
        = (s.state ip).conversation_ids := by
  have hrw : resetConversationWindow cfg now (pruneBurst cfg now (resetDaily today (s.state ip)))
      = pruneBurst cfg now (resetDaily today (s.state ip)) := by
    unfold resetConversationWindow
    rw [if_neg (by simpa using hwin)]
  simp only [checkLimit, hrw]
  by_cases h1 : cfg.daily_limit ≤ (resetDaily today (s.state ip)).daily_count
  · simp [h1, Function.update_same]
  · by_cases h2 : cfg.burst_limit
        ≤ (pruneBurst cfg now (resetDaily today (s.state ip))).burst_requests.length
    · simp [h1, h2, Function.update_same]
    · by_cases h3 : cfg.global_burst_limit
          ≤ (s.global_burst.filter
              (fun ts => decide (now - ts < cfg.global_burst_window_seconds))).length
      · simp [h1, h2, h3, Function.update_same]
      · simp [h1, h2, h3, hcid, hseen, Function.update_same]

theorem c10_seen_conversation_never_denied_witness :
    ("conv-1" : String) ≠ ""
    ∧ (checkLimit {} ⟨fun i => if i = "203.0.113.7" then
          { conversation_ids := ({"conv-1"} : Finset String) } else initialRateLimitState, []⟩
        5 "2026-10-12" "203.0.113.7" "conv-1").1 ≠ (false, "conversation") :=
  ⟨by decide,
    (c10_seen_conversation_never_denied {}
      ⟨fun i => if i = "203.0.113.7" then
          { conversation_ids := ({"conv-1"} : Finset String) } else initialRateLimitState, []⟩
      5 "2026-10-12" "203.0.113.7" "conv-1"
      (by decide) (by simp) (by simp; decide)).1⟩

/-! ## JSON values and Python `dict` semantics

The sanitizers, the retrieval post-processing and the final full-document
parse all operate on Python values produced by `json.loads`. `Json` models
those values; numbers are restricted to integers (the verified code paths
never inspect a float-valued JSON field, and the concrete documents in the
claims contain no numbers). -/

inductive Json where
  | null
  | bool (b : Bool)
  | num (n : ℤ)
  | str (s : String)
  | arr (xs : List Json)
  | obj (kvs : List (String × Json))

/-- Python truthiness (`bool(x)`) on JSON-shaped values: `None`, `False`, `0`,
`""`, `[]` and `{}` are falsy. -/
def pyTruthy : Json → Bool
  | .null => false
  | .bool b => b
  | .num n => n != 0
  | .str s => s ≠ ""
  | .arr [] => false
  | .arr (_ :: _) => true
  | .obj [] => false
  | .obj (_ :: _) => true

/-- Key lookup in a Python dict built by sequential insertion: the last binding
of the key wins; `none` when the key is absent or the value is not a dict. -/
def jfind (j : Json) (key : String) : Option Json :=
  match j with
  | .obj kvs => kvs.foldl (fun acc kv => if kv.1 = key then some kv.2 else acc) none
  | _ => none

/-- Python `d.get(key)`: `None` when the key is missing. -/
def jget (j : Json) (key : String) : Json := (jfind j key).getD Json.null

/-- Python `d.get(key, default)`: the default only applies when the key is
missing, not when its value is falsy. -/
def jgetD (j : Json) (key : String) (dflt : Json) : Json := (jfind j key).getD dflt

/-- Python `str(x)` for the values the sanitizers stringify. Scalars follow
CPython exactly; container reprs are abbreviated (the embedded code only ever
compares the results to `""` or truncates them, so the exact container repr is
never observable in the verified properties). -/
def pyStr : Json → String
  | .null => "None"
  | .bool true => "True"
  | .bool false => "False"
  | .num n => toString n
  | .str s => s
  | .arr _ => "[...]"
  | .obj _ => "[...]"

/-- Python whitespace for `str.strip()` and the regex class `\s` (ASCII part). -/
def isPySpace (c : Char) : Bool :=
  c = ' ' || c = '\t' || c = '\n' || c = '\r' || c = '\x0b' || c = '\x0c'

/-- Python `str.strip()` on a character list. -/
def stripChars (cs : List Char) : List Char :=
  ((cs.dropWhile isPySpace).reverse.dropWhile isPySpace).reverse

/-- Python `str.strip()`. -/
def pyStrip (s : String) : String := String.mk (stripChars s.data)

/-! ### A model of `json.loads`

Recursive-descent parse of the grammar the service relies on: `null`,
`true`/`false`, integers, strings with the standard escapes (including
`\uXXXX` for code points below the surrogate range), arrays and objects,
with JSON whitespace. Float literals are not modelled (see `Json`). The
`fuel` argument only forces termination; `parseJson` passes enough for any
input. -/

def isJsonWs (c : Char) : Bool := c = ' ' || c = '\t' || c = '\n' || c = '\r'

def skipJsonWs (cs : List Char) : List Char := cs.dropWhile isJsonWs

def hexDigitVal (c : Char) : Option Nat :=
  if '0' ≤ c ∧ c ≤ '9' then some (c.toNat - '0'.toNat)
  else if 'a' ≤ c ∧ c ≤ 'f' then some (c.toNat - 'a'.toNat + 10)
  else if 'A' ≤ c ∧ c ≤ 'F' then some (c.toNat - 'A'.toNat + 10)
  else none

/-- String-literal body scanner: consumes up to and including the closing
quote, decoding escapes; `acc` holds decoded characters in reverse. -/
def lexStringBody (acc : List Char) : List Char → Option (String × List Char)
  | [] => none
  | '"' :: rest => some (String.mk acc.reverse, rest)
  | '\\' :: 'u' :: a :: b :: c :: d :: rest => do
      let ha ← hexDigitVal a
      let hb ← hexDigitVal b
      let hc ← hexDigitVal c
      let hd ← hexDigitVal d
      let code := ((ha * 16 + hb) * 16 + hc) * 16 + hd
      if h : code < 0xd800 then
        lexStringBody (Char.ofNatAux code (by omega) :: acc) rest
      else none
  | '\\' :: e :: rest =>
      if e = '"' then lexStringBody ('"' :: acc) rest
      else if e = '\\' then lexStringBody ('\\' :: acc) rest
      else if e = '/' then lexStringBody ('/' :: acc) rest
      else if e = 'b' then lexStringBody ('\x08' :: acc) rest
      else if e = 'f' then lexStringBody ('\x0c' :: acc) rest
      else if e = 'n' then lexStringBody ('\n' :: acc) rest
      else if e = 'r' then lexStringBody ('\r' :: acc) rest
      else if e = 't' then lexStringBody ('\t' :: acc) rest
      else none
  | c :: rest => lexStringBody (c :: acc) rest

def isDigitChar (c : Char) : Bool := '0' ≤ c && c ≤ '9'

def takeDigitSpan : List Char → List Char × List Char
  | c :: cs =>
      if isDigitChar c then
        let (ds, r) := takeDigitSpan cs
        (c :: ds, r)
      else ([], c :: cs)
  | [] => ([], [])

def digitsVal (ds : List Char) : ℤ :=
  (ds.foldl (fun acc c => acc * 10 + (c.toNat - '0'.toNat)) 0 : ℕ)

/-- Integer literal: optional minus, digits, JSON's no-leading-zero rule. -/
def lexInt (cs : List Char) : Option (ℤ × List Char) :=
  let (neg, body) := match cs with
    | '-' :: r => (true, r)
    | r => (false, r)
  match takeDigitSpan body with
  | ([], _) => none
  | (ds, rest) =>
      if ds.length > 1 ∧ ds.headD '0' = '0' then none
      else some (if neg then -digitsVal ds else digitsVal ds, rest)

mutual

def parseValue : Nat → List Char → Option (Json × List Char)
  | 0, _ => none
  | fuel + 1, cs =>
    match skipJsonWs cs with
    | 'n' :: 'u' :: 'l' :: 'l' :: rest => some (Json.null, rest)
    | 't' :: 'r' :: 'u' :: 'e' :: rest => some (Json.bool true, rest)
    | 'f' :: 'a' :: 'l' :: 's' :: 'e' :: rest => some (Json.bool false, rest)
    | '"' :: rest => do
        let (s, rest2) ← lexStringBody [] rest
        some (Json.str s, rest2)
    | '[' :: rest =>
        (match skipJsonWs rest with
          | ']' :: rest2 => some (Json.arr [], rest2)
          | other => parseArrayItems fuel other [])
    | '\x7b' :: rest =>
        (match skipJsonWs rest with
          | '\x7d' :: rest2 => some (Json.obj [], rest2)
          | other => parseObjItems fuel other [])
    | other => do
        let (n, rest2) ← lexInt other
        some (Json.num n, rest2)

def parseArrayItems : Nat → List Char → List Json → Option (Json × List Char)
  | 0, _, _ => none
  | fuel + 1, cs, acc => do
      let (v, rest) ← parseValue fuel cs
      match skipJsonWs rest with
      | ',' :: rest2 => parseArrayItems fuel rest2 (acc ++ [v])
      | ']' :: rest2 => some (Json.arr (acc ++ [v]), rest2)
      | _ => none

def parseObjItems : Nat → List Char → List (String × Json) → Option (Json × List Char)
  | 0, _, _ => none
  | fuel + 1, cs, acc =>
      match skipJsonWs cs with
      | '"' :: rest => do
          let (k, rest2) ← lexStringBody [] rest
          match skipJsonWs rest2 with
          | ':' :: rest3 => do
              let (v, rest4) ← parseValue fuel rest3
              match skipJsonWs rest4 with
              | ',' :: rest5 => parseObjItems fuel rest5 (acc ++ [(k, v)])
              | '\x7d' :: rest5 => some (Json.obj (acc ++ [(k, v)]), rest5)
              | _ => none
          | _ => none
      | _ => none

end

/-- The model of `json.loads`: parse one document, allowing surrounding
whitespace, rejecting trailing garbage. -/
def parseJson (s : String) : Option Json :=
  match parseValue (s.length + 1) s.data with
  | some (v, rest) => if skipJsonWs rest = [] then some v else none
  | none => none

/-! ## Streaming `assistant.text` field extractor
(`app/anthropic_client.py`, `AnthropicClient.answer_stream`, lines 347-459)

The SSE plumbing around it is transport; the verified core is the per-character
state machine that projects the `assistant.text` value out of the raw model
stream, and the final fence-strip + full parse of the accumulated buffer. -/

/-- Extractor state (answer_stream lines 350-355): `st` is the Python `state`
int (0=looking, 1=found pattern, 2=inside text value, 3=done). -/
structure ExtractState where
  st : Nat
  pattern_buffer : List Char
  escape_next : Bool

def initialExtractState : ExtractState := ⟨0, [], false⟩

/-- `TARGET_PATTERNS` (answer_stream line 355): the whitespace-tolerant
variants of the opening path. -/
def targetPatterns : List (List Char) :=
  [("\"assistant\":\x7b\"text\":").data,
   ("\"assistant\": \x7b\"text\":").data,
   ("\"assistant\":\x7b \"text\":").data]

/-- One character step of the extractor (answer_stream lines 384-434). Returns
the new state and the `text` deltas emitted for this character (each emitted
delta is a single decoded character in the source). In state 1 the source
treats whitespace and unexpected characters identically (both `pass`), which
the single else-branch mirrors. -/
def feedChar (s : ExtractState) (c : Char) : ExtractState × List Char :=
  match s.st with
  | 0 =>
      let buf := s.pattern_buffer ++ [c]
      if targetPatterns.any (fun p => p.isSuffixOf buf) then
        ({ st := 1, pattern_buffer := [], escape_next := s.escape_next }, [])
      else
        let buf' := if 50 < buf.length then buf.drop (buf.length - 30) else buf
        ({ s with pattern_buffer := buf' }, [])
  | 1 =>
      if c = '"' then ({ s with st := 2 }, []) else (s, [])
  | 2 =>
      if s.escape_next then
        let d := if c = 'n' then '\n'
          else if c = 't' then '\t'
          else if c = 'r' then '\r'
          else c
        ({ s with escape_next := false }, [d])
      else if c = '\\' then ({ s with escape_next := true }, [])
      else if c = '"' then ({ s with st := 3 }, [])
      else (s, [c])
  | _ => (s, [])

/-- Feed a whole character sequence through the extractor, collecting every
emitted `text` delta in order. -/
def runExtract (cs : List Char) : List Char :=
  (cs.foldl (fun acc c =>
      let step := feedChar acc.1 c
      (step.1, acc.2 ++ step.2)) (initialExtractState, [])).2

/-- Code-fence stripping applied to the accumulated buffer before the final
parse (answer_stream lines 445-457; the same logic appears in `chat_json`). -/
def stripCodeFences (s : String) : String :=
  let content := stripChars s.data
  if ("```json").data.isPrefixOf content then
    let c := content.drop 7
    let c := if ("```").data.isSuffixOf c then c.take (c.length - 3) else c
    String.mk (stripChars c)
  else if ("```").data.isPrefixOf content then
    let c := content.drop 3
    let c := if ("```").data.isSuffixOf c then c.take (c.length - 3) else c
    String.mk (stripChars c)
  else String.mk content

/-- The concrete streamed document of claim C5:
`{"assistant":{"text":"A\nB"},"ui":{"view":"chat"},"chips":[]}` (the two-byte
escape `\n` appears literally in the stream). -/
def c5Doc : String :=
  "\x7b\"assistant\":\x7b\"text\":\"A\\nB\"\x7d,\"ui\":\x7b\"view\":\"chat\"\x7d,\"chips\":[]\x7d"

/-- C5: feeding the C5 document to the extractor one character at a time emits
exactly the decoded deltas `A`, newline, `B` in that order, and the final
fence-strip + full parse of the accumulated buffer (the pipeline's
`json.loads` step) yields exactly the structured object
`{assistant: {text: "A\nB"}, ui: {view: "chat"}, chips: []}`. -/
theorem c5_streaming_extractor_deterministic :
    runExtract c5Doc.data = ['A', '\n', 'B']
    ∧ parseJson (stripCodeFences c5Doc)
        = some (Json.obj
            [("assistant", Json.obj [("text", Json.str "A\nB")]),
             ("ui", Json.obj [("view", Json.str "chat")]),
             ("chips", Json.arr [])]) := by
  constructor <;> rfl

/-! ## Plain-text chips fallback
(`app/agents/response.py`, `ResponseAgent._extract_chips_from_text`,
lines 221-250)

When the final full-document parse fails, `run_stream` treats the accumulated
text as the display string and salvages a trailing bracketed list of quoted
strings via `re.search` of the anchored pattern
`\[(?:"[^"]*"(?:\s*,\s*"[^"]*")*)\]\s*$`, then `re.findall` of `"([^"]*)"`
over the matched span. The recognizers below are a direct model of those two
regexes (both are deterministic: quoted contents exclude `"`). -/

/-- Consume a `[^"]*"` span: the characters before the next quote, and the
rest after it; `none` when no closing quote exists. -/
def quotedSpan : List Char → Option (List Char × List Char)
  | [] => none
  | '"' :: rest => some ([], rest)
  | c :: rest => do
      let (cnt, r) ← quotedSpan rest
      some (c :: cnt, r)

/-- Recognizer for the pattern suffix `(?:\s*,\s*"[^"]*")*\]\s*$`, entered just
after a closing quote. `fuel` only forces termination. -/
def chipsAfterQuoted : Nat → List Char → Bool
  | 0, _ => false
  | fuel + 1, cs =>
      match cs with
      | ']' :: rest => decide (rest.dropWhile isPySpace = [])
      | _ =>
          match cs.dropWhile isPySpace with
          | ',' :: r2 =>
              (match r2.dropWhile isPySpace with
                | '"' :: r4 =>
                    (match quotedSpan r4 with
                      | some (_, r5) => chipsAfterQuoted fuel r5
                      | none => false)
                | _ => false)
          | _ => false

/-- Does the whole chips pattern `\[ " ... \]\s*$` match starting here? -/
def matchChipsHere : List Char → Bool
  | '[' :: '"' :: rest =>
      (match quotedSpan rest with
        | some (_, r) => chipsAfterQuoted (r.length + 1) r
        | none => false)
  | _ => false

/-- `re.search`: index of the leftmost position where the pattern matches. -/
def searchChips : List Char → Option Nat
  | [] => none
  | c :: rest =>
      if matchChipsHere (c :: rest) then some 0
      else (searchChips rest).map (· + 1)

/-- `re.findall` of `"([^"]*)"`: non-overlapping leftmost quoted contents. -/
def findQuoted : Nat → List Char → List String
  | 0, _ => []
  | fuel + 1, cs =>
      match cs with
      | [] => []
      | '"' :: rest =>
          (match quotedSpan rest with
            | some (content, r) => String.mk content :: findQuoted fuel r
            | none => [])
      | _ :: rest => findQuoted fuel rest

/-- `ResponseAgent._extract_chips_from_text` (response.py lines 221-250): when
the anchored pattern matches, the matched span (which extends to the end of the
string) is removed from the display text, the remainder is stripped, and the
quoted contents of the span become the chips; otherwise the text is returned
unchanged with no chips. -/
def extractChipsFromText (text : String) : String × List String :=
  let cs := text.data
  match searchChips cs with
  | some i =>
      (String.mk (stripChars (cs.take i)), findQuoted (cs.drop i).length (cs.drop i))
  | none => (text, [])

/-- The concrete raw model output of claim C8. -/
def c8Raw : String := "Sure, happy to help.\n[\"Tell me more\",\"Contact instead\"]"

/-- C8: the C8 raw text is not a parsable JSON document, and the fallback
(applied, as in `run_stream`, to the stripped accumulated text) returns the
display text with the trailing bracketed list removed and trimmed, plus the two
quoted strings as the chip list. -/
theorem c8_fallback_chips_salvage :
    parseJson c8Raw = none
    ∧ extractChipsFromText (pyStrip c8Raw)
        = ("Sure, happy to help.", ["Tell me more", "Contact instead"]) := by
  constructor <;> rfl

/-! ## Retrieval post-processing
(`chat-api-service/app/retrieval.py`, `RetrievalService.retrieve` lines 34-74,
`_compute_related_slugs` lines 76-93, `is_ui_visible_item` lines 96-107) -/

/-- `RetrievedChunk` (retrieval.py lines 13-25), after the constructor's
coercions: `type` is one of the three valid strings. The Python field
`section` is `sectionLabel` here (`section` is a Lean keyword). -/
structure RetrievedChunk where
  type : String
  slug : String
  chunkId : ℤ
  sectionLabel : String
  text : String
  score : ℚ
  title : Option String
  company : Option String
  role : Option String
  period : Option String

/-- One Qdrant search hit: `score` models `float(p.get("score") or 0.0)` (the
collaborator returns a numeric relevance score; an absent score is `0`), and
`payload` is the raw `p.get("payload")` value. -/
structure ScoredPoint where
  score : ℚ
  payload : Json

/-- Python `str(payload.get(key) or "")`. -/
def jStrOrEmpty (payload : Json) (key : String) : String :=
  let v := jget payload key
  if pyTruthy v then pyStr v else ""

/-- Python `str(payload.get(key)) if payload.get(key) else None`. -/
def jStrOpt (payload : Json) (key : String) : Option String :=
  let v := jget payload key
  if pyTruthy v then some (pyStr v) else none

/-- Python `int(payload.get("chunkId") or 0)` for the numeric ids the ingestion
writes (`int()` of a non-numeric value raises; no claim observes `chunkId`). -/
def pyIntOrZero (v : Json) : ℤ :=
  match v with
  | .num n => n
  | .bool true => 1
  | _ => 0

/-- Chunk construction (retrieval.py lines 40-58): `payload or {}` defaulting,
`type` coerced into the three valid strings with `"experience"` as fallback. -/
def chunkOfPoint (p : ScoredPoint) : RetrievedChunk :=
  let payload := if pyTruthy p.payload then p.payload else Json.obj []
  let traw := jget payload "type"
  let traw := if pyTruthy traw then traw else Json.str "experience"
  let ctype := match traw with
    | Json.str s => if s = "experience" ∨ s = "project" ∨ s = "background" then s
        else "experience"
    | _ => "experience"
  { type := ctype
    slug := jStrOrEmpty payload "slug"
    chunkId := pyIntOrZero (if pyTruthy (jget payload "chunkId")
        then jget payload "chunkId" else Json.num 0)
    sectionLabel := jStrOrEmpty payload "section"
    text := jStrOrEmpty payload "text"
    score := p.score
    title := jStrOpt payload "title"
    company := jStrOpt payload "company"
    role := jStrOpt payload "role"
    period := jStrOpt payload "period" }

/-- Slug statistics update (retrieval.py lines 81-85): first occurrence
initialises `{count: 0, maxScore: 0}` (so a negative score never raises the
max above `0`), later occurrences bump the count and keep the running strict
maximum. Entries keep first-seen order, as a Python dict does. -/
def updateStats (stats : List (String × ℚ × ℚ)) (slug : String) (score : ℚ) :
    List (String × ℚ × ℚ) :=
  if stats.any (fun e => e.1 = slug) then
    stats.map (fun e => if e.1 = slug then (e.1, e.2.1 + 1, max e.2.2 score) else e)
  else
    stats ++ [(slug, 1, max 0 score)]

/-- Descending lexicographic comparison on `(count, maxScore)`. -/
def statKeyLt (a b : ℚ × ℚ) : Bool := a.1 < b.1 || (a.1 == b.1 && a.2 < b.2)

/-- Stable insertion placing `x` before the first strictly smaller key:
equal-key entries keep their existing relative order, so a left fold of this
insertion is Python's stable `sorted(..., reverse=True)`. -/
def insertDescStat (x : String × ℚ × ℚ) : List (String × ℚ × ℚ) → List (String × ℚ × ℚ)
  | [] => [x]
  | y :: ys => if statKeyLt (y.2.1, y.2.2) (x.2.1, x.2.2) then x :: y :: ys
      else y :: insertDescStat x ys

def sortStatsDesc (l : List (String × ℚ × ℚ)) : List (String × ℚ × ℚ) :=
  l.foldl (fun acc x => insertDescStat x acc) []

/-- `RetrievalService._compute_related_slugs` (retrieval.py lines 76-93): group
the main chunks by slug, rank by `(count, maxScore)` descending, take the top
6 slugs. Note the service version performs no store-truth lookup. -/
def computeRelatedSlugs (chunks : List RetrievedChunk) : List String :=
  let stats := chunks.foldl (fun st c =>
      if c.slug = "" ∨ c.type = "background" then st
      else updateStats st c.slug c.score) []
  ((sortStatsDesc stats).take 6).map (fun e => e.1)

structure RetrievalResult where
  chunks : List RetrievedChunk
  relatedSlugs : List String

/-- `RetrievalService.retrieve` (retrieval.py lines 34-74): build chunks,
drop those with empty slug or text, split into main (experience/project) and
background subsequences (the Python loop's two appended lists are exactly the
two order-preserving filters), cap each, emit main before background, and
compute related slugs from the capped main list. -/
def retrieveService (maxBackgroundChunks maxMainChunks : Nat)
    (points : List ScoredPoint) : RetrievalResult :=
  let built := (points.map chunkOfPoint).filter (fun c => c.slug ≠ "" && c.text ≠ "")
  let background := (built.filter (fun c => c.type = "background")).take maxBackgroundChunks
  let main := (built.filter (fun c => ¬ c.type = "background")).take maxMainChunks
  { chunks := main ++ background, relatedSlugs := computeRelatedSlugs main }

/-- Python `x == "background"` on a JSON value (a non-string value compares
unequal to a string). -/
def isBackgroundTypeVal (v : Json) : Bool :=
  match v with
  | Json.str s => s == "background"
  | _ => false

/-- `is_ui_visible_item` (retrieval.py lines 96-107): falsy payloads and
background-typed items are not visible; a `visibleIn` list decides by
containing `"artifacts"`; otherwise visibility is `uiVisible is not False`. -/
def isUiVisibleItem (payload : Option Json) : Bool :=
  match payload with
  | none => false
  | some p =>
      if ¬ pyTruthy p then false
      else if isBackgroundTypeVal (jget p "type") then
        false
      else
        match jfind p "visibleIn" with
        | some (Json.arr xs) =>
            xs.any (fun v => match v with | Json.str s => s = "artifacts" | _ => false)
        | _ =>
            match jget p "uiVisible" with
            | Json.bool false => false
            | _ => true

lemma mem_main_not_background (built : List RetrievedChunk) (maxM : Nat) (c : RetrievedChunk)
    (hc : c ∈ ((built.filter (fun c => ¬ c.type = "background")).take maxM)) :
    ¬ c.type = "background" := by
  have h1 := List.mem_of_mem_take hc
  have h2 := List.of_mem_filter h1
  simpa using h2

lemma mem_bg_background (built : List RetrievedChunk) (maxB : Nat) (c : RetrievedChunk)
    (hc : c ∈ ((built.filter (fun c => c.type = "background")).take maxB)) :
    c.type = "background" := by
  have h1 := List.mem_of_mem_take hc
  have h2 := List.of_mem_filter h1
  simpa using h2

/-- C7: every `retrieve` result contains at most `max_background_chunks`
background chunks and at most `max_main_chunks` experience/project chunks, and
in the emitted list every experience/project chunk precedes every background
chunk (once a background chunk appears, everything after it is background). -/
theorem c7_retrieval_caps_and_ordering (maxB maxM : Nat) (points : List ScoredPoint) :
    ((retrieveService maxB maxM points).chunks.countP (fun c => c.type = "background")) ≤ maxB
    ∧ ((retrieveService maxB maxM points).chunks.countP
        (fun c => c.type = "experience" ∨ c.type = "project")) ≤ maxM
    ∧ ∀ i j, (hi : i < (retrieveService maxB maxM points).chunks.length) →
        (hj : j < (retrieveService maxB maxM points).chunks.length) → i < j →
        ((retrieveService maxB maxM points).chunks.get ⟨i, hi⟩).type = "background" →
        ((retrieveService maxB maxM points).chunks.get ⟨j, hj⟩).type = "background" := by
  have hform : (retrieveService maxB maxM points).chunks
      = (((points.map chunkOfPoint).filter (fun c => c.slug ≠ "" && c.text ≠ "")).filter
            (fun c => ¬ c.type = "background")).take maxM
        ++ (((points.map chunkOfPoint).filter (fun c => c.slug ≠ "" && c.text ≠ "")).filter
            (fun c => c.type = "background")).take maxB := rfl
  rw [hform]
  set built := (points.map chunkOfPoint).filter (fun c => c.slug ≠ "" && c.text ≠ "") with hbuilt
  set A := (built.filter (fun c => ¬ c.type = "background")).take maxM with hAdef
  set B := (built.filter (fun c => c.type = "background")).take maxB with hBdef
  have hA : ∀ c ∈ A, ¬ c.type = "background" := fun c hc =>
    mem_main_not_background built maxM c hc
  have hB : ∀ c ∈ B, c.type = "background" := fun c hc =>
    mem_bg_background built maxB c hc
  refine ⟨?_, ?_, ?_⟩
  · rw [List.countP_append]
    have hzero : A.countP (fun c => decide (c.type = "background")) = 0 := by
      rw [List.countP_eq_zero]
      intro c hc
      simpa using hA c hc
    rw [hzero, Nat.zero_add]
    calc B.countP (fun c => decide (c.type = "background")) ≤ B.length :=
          List.countP_le_length _
      _ ≤ maxB := by rw [hBdef]; exact List.length_take_le _ _
  · rw [List.countP_append]
    have hzero : B.countP (fun c => decide (c.type = "experience" ∨ c.type = "project")) = 0 := by
      rw [List.countP_eq_zero]
      intro c hc
      have := hB c hc
      simp [this]
    rw [hzero, Nat.add_zero]
    calc A.countP (fun c => decide (c.type = "experience" ∨ c.type = "project")) ≤ A.length :=
          List.countP_le_length _
      _ ≤ maxM := by rw [hAdef]; exact List.length_take_le _ _
  · intro i j hi hj hij hbgi
    simp only [List.get_eq_getElem] at hbgi ⊢
    by_cases hiA : i < A.length
    · exact absurd hbgi (by
        rw [List.getElem_append_left hiA]
        exact hA _ (List.getElem_mem _))
    · have hjA : A.length ≤ j := by omega
      rw [List.getElem_append_right hjA]
      exact hB _ (List.getElem_mem _)

theorem c7_retrieval_caps_and_ordering_witness :
    (0 : Nat) < 1 ∧
    ((retrieveService 2 10
        [⟨(9 : ℚ) / 10, Json.obj [("type", Json.str "background"), ("slug", Json.str "a"),
            ("text", Json.str "t")]⟩,
         ⟨(8 : ℚ) / 10, Json.obj [("type", Json.str "background"), ("slug", Json.str "b"),
            ("text", Json.str "t")]⟩]).chunks.get ⟨1, by decide⟩).type = "background" :=
  ⟨Nat.zero_lt_one,
    (c7_retrieval_caps_and_ordering 2 10
        [⟨(9 : ℚ) / 10, Json.obj [("type", Json.str "background"), ("slug", Json.str "a"),
            ("text", Json.str "t")]⟩,
         ⟨(8 : ℚ) / 10, Json.obj [("type", Json.str "background"), ("slug", Json.str "b"),
            ("text", Json.str "t")]⟩]).2.2
      0 1 (by decide) (by decide) (by decide) (by rfl)⟩

/-- The claim-C3 counterexample store: the only item record is typed
`background` (hence not UI-visible). -/
def c3Store : String → Option Json := fun s =>
  if s = "positium" then
    some (Json.obj [("type", Json.str "background"), ("slug", Json.str "positium")])
  else none

/-- The claim-C3 counterexample search result: a single chunk whose own payload
is typed `experience` but whose slug's store-truth record is `background`. -/
def c3Points : List ScoredPoint :=
  [⟨(9 : ℚ) / 10,
    Json.obj [("type", Json.str "experience"), ("slug", Json.str "positium"),
      ("chunkId", Json.num 0), ("section", Json.str "Impact"),
      ("text", Json.str "Led delivery of the mobility model")]⟩]

/-- C3 counterexample: the service's `_compute_related_slugs` performs no
store-truth lookup, so a retrieval call returns `"positium"` in `relatedSlugs`
even though its store-truth record is typed `background` and is not UI-visible
— refuting the claim for `chat-api-service/app/retrieval.py`. -/
theorem c3_counterexample_related_slug_not_store_filtered :
    (retrieveService 2 10 c3Points).relatedSlugs = ["positium"]
    ∧ isBackgroundTypeVal (jget ((c3Store "positium").getD Json.null) "type") = true
    ∧ isUiVisibleItem (c3Store "positium") = false := by
  exact ⟨rfl, rfl, rfl⟩

/-! ## Lambda retrieval variant
(`chat-api-lambda/src/retrieval.py` lines 20-109 and
`chat-api-lambda/src/opensearch_client.py`, `validate_slugs` lines 131-141)

The repository's earlier lambda implementation of the same stage: it builds
chunks without the empty-slug/text skip, and — unlike the service version —
passes the top slugs through `validate_slugs`, which keeps only slugs whose
store item exists, is truthy, has `uiVisible` not falsy (default `True` when
missing) and is not typed `background`. -/

/-- One OpenSearch hit: `score` models `hit.get("_score", 0.0)` (numeric from
the store), `fields` the remaining source fields. -/
structure LambdaHit where
  score : ℚ
  fields : Json

/-- The chunk dict built in the lambda `retrieve` (lines 50-57): raw
`hit.get(key, default)` values, no type coercion. A non-string slug value is
represented by its string repr (OpenSearch sources store slugs as strings;
only truthiness and key identity of the slug are ever used). -/
structure LambdaChunk where
  type : Json
  slug : String
  chunkId : Json
  sectionLabel : Json
  text : Json
  score : ℚ

def chunkOfHit (h : LambdaHit) : LambdaChunk :=
  { type := jgetD h.fields "type" (Json.str "experience")
    slug := (let v := jgetD h.fields "slug" (Json.str "")
             if pyTruthy v then pyStr v else "")
    chunkId := jgetD h.fields "chunkId" (Json.num 0)
    sectionLabel := jgetD h.fields "section" (Json.str "")
    text := jgetD h.fields "text" (Json.str "")
    score := h.score }

/-- Lambda slug statistics (lambda retrieval.py lines 82-94): integer count,
float max score, first-seen entry order. -/
def updateStatsL (stats : List (String × ℕ × ℚ)) (slug : String) (score : ℚ) :
    List (String × ℕ × ℚ) :=
  if stats.any (fun e => e.1 = slug) then
    stats.map (fun e => if e.1 = slug then (e.1, e.2.1 + 1, max e.2.2 score) else e)
  else
    stats ++ [(slug, 1, max 0 score)]

def statKeyLtL (a b : ℕ × ℚ) : Bool := a.1 < b.1 || (a.1 == b.1 && a.2 < b.2)

def insertDescStatL (x : String × ℕ × ℚ) : List (String × ℕ × ℚ) → List (String × ℕ × ℚ)
  | [] => [x]
  | y :: ys => if statKeyLtL (y.2.1, y.2.2) (x.2.1, x.2.2) then x :: y :: ys
      else y :: insertDescStatL x ys

def sortStatsDescL (l : List (String × ℕ × ℚ)) : List (String × ℕ × ℚ) :=
  l.foldl (fun acc x => insertDescStatL x acc) []

/-- `OpenSearchClient.validate_slugs` (opensearch_client.py lines 131-141):
keep a slug iff its item exists, is truthy, `item.get("uiVisible", True)` is
truthy, and `item.get("type") != "background"`. -/
def validateSlugs (getItem : String → Option Json) (slugs : List String) : List String :=
  slugs.filter (fun s =>
    match getItem s with
    | some item =>
        pyTruthy item && pyTruthy (jgetD item "uiVisible" (Json.bool true))
          && !(isBackgroundTypeVal (jget item "type"))
    | none => false)

/-- Lambda `_compute_related_slugs` (lambda retrieval.py lines 76-109): group,
rank `(count, maxScore)` descending (stable), take top 6, then filter through
`validate_slugs`. -/
def lambdaComputeRelatedSlugs (getItem : String → Option Json)
    (chunks : List LambdaChunk) : List String :=
  let stats := chunks.foldl (fun st c =>
      if c.slug = "" ∨ isBackgroundTypeVal c.type then st
      else updateStatsL st c.slug c.score) []
  validateSlugs getItem (((sortStatsDescL stats).take 6).map (fun e => e.1))

structure LambdaRetrievalResult where
  chunks : List LambdaChunk
  relatedSlugs : List String

/-- Lambda `RetrievalService.retrieve` (lambda retrieval.py lines 20-74). -/
def lambdaRetrieve (maxBackgroundChunks maxMainChunks : Nat)
    (getItem : String → Option Json) (hits : List LambdaHit) : LambdaRetrievalResult :=
  let chunks := hits.map chunkOfHit
  let background := (chunks.filter (fun c => isBackgroundTypeVal c.type)).take maxBackgroundChunks
  let main := (chunks.filter (fun c => ¬ isBackgroundTypeVal c.type)).take maxMainChunks
  { chunks := main ++ background, relatedSlugs := lambdaComputeRelatedSlugs getItem main }

/-- C3 as amended: in the lambda implementation (the one that performs the
store-truth filter the claim describes), every slug in the returned
`relatedSlugs` has an existing, truthy store record that is not typed
`background` and whose `uiVisible` flag (default true) is truthy. The service
implementation omits this filter — see the counterexample. -/
theorem c3_amended_lambda_related_slugs_grounded (getItem : String → Option Json)
    (maxB maxM : Nat) (hits : List LambdaHit) (s : String)
    (hmem : s ∈ (lambdaRetrieve maxB maxM getItem hits).relatedSlugs) :
    ∃ item, getItem s = some item ∧ pyTruthy item = true
      ∧ pyTruthy (jgetD item "uiVisible" (Json.bool true)) = true
      ∧ isBackgroundTypeVal (jget item "type") = false := by
  have hp := (List.mem_filter.mp hmem).2
  cases hg : getItem s with
  | none => rw [hg] at hp; exact absurd hp (by simp)
  | some item =>
      rw [hg] at hp
      simp only [Bool.and_eq_true, Bool.not_eq_true'] at hp
      exact ⟨item, rfl, hp.1.1, hp.1.2, hp.2⟩

/-- Store and hit for the amended-C3 witness. -/
def c3WitnessStore : String → Option Json := fun s =>
  if s = "guardtime" then
    some (Json.obj [("type", Json.str "experience"), ("title", Json.str "Product Owner")])
  else none

def c3WitnessHits : List LambdaHit :=
  [⟨(9 : ℚ) / 10,
    Json.obj [("slug", Json.str "guardtime"), ("type", Json.str "experience"),
      ("chunkId", Json.num 0), ("section", Json.str "A"), ("text", Json.str "Led work")]⟩]

theorem c3_amended_lambda_related_slugs_grounded_witness :
    ("guardtime" ∈ (lambdaRetrieve 2 10 c3WitnessStore c3WitnessHits).relatedSlugs)
    ∧ ∃ item, c3WitnessStore "guardtime" = some item ∧ pyTruthy item = true
        ∧ pyTruthy (jgetD item "uiVisible" (Json.bool true)) = true
        ∧ isBackgroundTypeVal (jget item "type") = false :=
  ⟨by decide,
    c3_amended_lambda_related_slugs_grounded c3WitnessStore 2 10 c3WitnessHits
      "guardtime" (by decide)⟩

/-! ## Output sanitizers
(`chat-api-service/app/pipeline.py`, `ChatPipeline._sanitize_and_validate_response`
lines 305-449, wired into `main.py`; and
`chat-api-service/app/agents/validator.py`, `ValidatorAgent.run` lines 24-184,
the agents-pipeline variant)

The two sanitizers share most of their structure; they differ in the
relevant-experience item metadata (the validator overrides
title/company/role/period from the store payload, the pipeline copies the
model's item fields and has no company field) and in the active-tab client
fallback. -/

def isObj : Json → Bool
  | .obj _ => true
  | _ => false

def apologyText : String := "Whoa... a problem occurred! Please try that again."

/-- Assistant-text step (pipeline.py lines 313-317; validator.py lines 35-44):
a missing, non-string or whitespace-only text becomes the fixed apology. -/
def sanitizeAssistantText (answer_out : Json) : String :=
  let assistant := (let a := jget answer_out "assistant"; if isObj a then a else Json.obj [])
  let atext := (let t := jget assistant "text"; if pyTruthy t then t else Json.str "")
  match atext with
  | Json.str s => if pyStrip s = "" then apologyText else s
  | _ => apologyText

/-- UI directive source (pipeline.py line 320): answer's `ui`, else router's,
else `{view: chat}` — Python `or` picks the first truthy value. -/
def uiRawOf (answer_out routerUi : Json) : Json :=
  let a := jget answer_out "ui"
  if pyTruthy a then a
  else if pyTruthy routerUi then routerUi
  else Json.obj [("view", Json.str "chat")]

/-- View coercion (pipeline.py lines 321-323): anything but `chat`/`split`
becomes `chat`. -/
def uiViewBase (ui_raw : Json) : String :=
  let v := if isObj ui_raw then jget ui_raw "view" else Json.str "chat"
  match v with
  | Json.str s => if s = "chat" ∨ s = "split" then s else "chat"
  | _ => "chat"

/-- Monotonicity step (pipeline.py lines 325-327): a client already in split
forces the outgoing view to split. -/
def uiViewOfP (ui_raw : Json) (clientView : Option String) : String :=
  if clientView = some "split" then "split" else uiViewBase ui_raw

def tabValid (v : Json) : Bool :=
  match v with
  | .str s => s == "brief" || s == "experience"
  | _ => false

/-- Active-tab resolution, pipeline variant (pipeline.py lines 330-340): an
absent/invalid tab falls back to the client's `ui.split.activeTab` when the
client UI state exists, then to `brief`. `clientView.isSome` models
`req.client and req.client.ui` (the view literal is always set on `ClientUI`),
and `clientSplit` is `req.client.ui.split` (`dict | None`). -/
def activeTabOfP (ui_raw : Json) (clientView : Option String) (clientSplit : Option Json) :
    String :=
  let split_raw := if isObj ui_raw then jget ui_raw "split" else Json.obj []
  let a0 : Json := if isObj split_raw then jget split_raw "activeTab" else Json.str "brief"
  let a1 := if (¬ pyTruthy a0 ∨ ¬ tabValid a0) ∧ clientView.isSome then
      match clientSplit with
      | some (Json.obj kvs) =>
          let v := jget (Json.obj kvs) "activeTab"
          if pyTruthy v then v else a0
      | _ => a0
    else a0
  match a1 with
  | Json.str s => if s = "brief" ∨ s = "experience" then s else "brief"
  | _ => "brief"

/-- Hints step (pipeline.py lines 343-346): `suggestTab` constrained to
`brief`/`experience`/`None`. -/
def suggestTabOf (answer_out routerHints : Json) : Option String :=
  let hints_raw := (let h := jget answer_out "hints"
    if pyTruthy h then h else if pyTruthy routerHints then routerHints else Json.obj [])
  let s0 := if isObj hints_raw then jget hints_raw "suggestTab" else Json.null
  match s0 with
  | Json.str s => if s = "brief" ∨ s = "experience" then some s else none
  | _ => none

/-- Chips step (pipeline.py lines 351-353): stringify, strip, drop empties,
cap at 6. -/
def chipsOf (answer_out : Json) : List String :=
  let chips_raw := (let c := jget answer_out "chips"; if pyTruthy c then c else Json.arr [])
  let xs := match chips_raw with | Json.arr ys => ys | _ => []
  ((xs.map (fun c => pyStrip (pyStr c))).filter (fun c => c ≠ "")).take 6

structure FitBriefSectionOut where
  id : String
  title : String
  content : String

structure FitBriefOut where
  title : String
  sections : List FitBriefSectionOut

structure FinalRelevantItem where
  slug : String
  type : String
  title : String
  company : Option String
  role : Option String
  period : Option String
  bullets : List String
  whyRelevant : Option String

structure RelevantGroupOut where
  title : String
  items : List FinalRelevantItem

structure ArtifactsOut where
  fitBrief : Option FitBriefOut
  relevantExperience : Option (List RelevantGroupOut)

/-- Fit-brief step (pipeline.py lines 361-375 = validator.py lines 84-98): the
key is set only when the raw value is a dict; the first 10 raw sections are
kept when `id`, `title`, `content` are all truthy, with the length caps. -/
def fitBriefOf (artifacts_raw : Json) : Option FitBriefOut :=
  let fb := if isObj artifacts_raw then jget artifacts_raw "fitBrief" else Json.obj []
  match fb with
  | Json.obj kvs =>
      let fbv := Json.obj kvs
      let sections_raw := match jget fbv "sections" with | Json.arr xs => xs | _ => []
      let sections := (sections_raw.take 10).filterMap (fun s =>
        match s with
        | Json.obj _ =>
            if pyTruthy (jget s "id") ∧ pyTruthy (jget s "title")
                ∧ pyTruthy (jget s "content") then
              some { id := pyStr (jget s "id"),
                     title := (pyStr (jget s "title")).take 100,
                     content := (pyStr (jget s "content")).take 2000 }
            else none
        | _ => none)
      some { title := (pyStr (let t := jget fbv "title"
                if pyTruthy t then t else Json.str "Fit Brief")).take 200,
             sections := sections }
  | _ => none

/-- Python `str(item.get("slug") or "")` (pipeline.py line 390). -/
def modelSlugOf (item : Json) : String :=
  let v := jget item "slug"
  if pyTruthy v then pyStr v else ""

/-- Python `str(item.get("type") or "experience")` (pipeline.py line 391). -/
def modelTypeOf (item : Json) : String :=
  pyStr (let v := jget item "type"; if pyTruthy v then v else Json.str "experience")

/-- Bullet list sanitation (pipeline.py lines 399-400): truthy raw bullets,
stringified and stripped, capped at 6 (the truthiness filter runs before the
strip, so a whitespace-only bullet survives as an empty string). -/
def bulletsOf (item : Json) : List String :=
  let bulletsRaw := match jget item "bullets" with | Json.arr xs => xs | _ => []
  ((bulletsRaw.filter pyTruthy).map (fun b => pyStrip (pyStr b))).take 6

/-- Relevant-experience item, pipeline variant (pipeline.py lines 387-410):
the slug must be store-valid and UI-visible, but the surviving item's
`title`/`role`/`period` are copied from the model-asserted item fields, and no
company field is emitted (pydantic defaults it to `None`). -/
def pipelineItemOf (getItem : String → Option Json) (item : Json) : Option FinalRelevantItem :=
  match item with
  | Json.obj kvs =>
      let itemv := Json.obj kvs
      if ¬ (modelTypeOf itemv = "experience" ∨ modelTypeOf itemv = "project") then none
      else if ¬ isUiVisibleItem (getItem (modelSlugOf itemv)) then none
      else
        some { slug := modelSlugOf itemv
               type := modelTypeOf itemv
               title := (pyStr (let t := jget itemv "title"
                  if pyTruthy t then t else Json.str "")).take 200
               company := none
               role := (let v := jget itemv "role"
                  if pyTruthy v then some ((pyStr v).take 200) else none)
               period := (let v := jget itemv "period"
                  if pyTruthy v then some ((pyStr v).take 100) else none)
               bullets := bulletsOf itemv
               whyRelevant := (let v := jget itemv "whyRelevant"
                  if pyTruthy v then some ((pyStr v).take 500) else none) }
  | _ => none

/-- The group's surviving items (pipeline.py lines 385-410): first 10 raw
items, each passed through the item sanitizer. -/
def groupItemsOf (itemOf : Json → Option FinalRelevantItem) (gv : Json) :
    List FinalRelevantItem :=
  ((match jget gv "items" with | Json.arr xs => xs | _ => []).take 10).filterMap itemOf

/-- Group step (pipeline.py lines 382-416): first 5 raw groups, first 10 raw
items each, groups with no surviving item dropped. -/
def groupOf (itemOf : Json → Option FinalRelevantItem) (g : Json) : Option RelevantGroupOut :=
  match g with
  | Json.obj kvs =>
      if (groupItemsOf itemOf (Json.obj kvs)).isEmpty then none
      else some { title := (pyStr (if pyTruthy (jget (Json.obj kvs) "title")
                    then jget (Json.obj kvs) "title" else Json.str "Relevant")).take 200,
                  items := groupItemsOf itemOf (Json.obj kvs) }
  | _ => none

/-- The surviving groups (pipeline.py lines 380-416): first 5 raw groups
through the group step. -/
def survivingGroupsOf (itemOf : Json → Option FinalRelevantItem) (rev : Json) :
    List RelevantGroupOut :=
  ((match jget rev "groups" with | Json.arr xs => xs | _ => []).take 5).filterMap
    (groupOf itemOf)

/-- Relevant-experience step (pipeline.py lines 378-419): present in the
output only when at least one group survives. -/
def relevantExperienceOf (itemOf : Json → Option FinalRelevantItem) (artifacts_raw : Json) :
    Option (List RelevantGroupOut) :=
  match (if isObj artifacts_raw then jget artifacts_raw "relevantExperience"
      else Json.obj []) with
  | Json.obj kvs =>
      if (survivingGroupsOf itemOf (Json.obj kvs)).isEmpty then none
      else some (survivingGroupsOf itemOf (Json.obj kvs))
  | _ => none

/-- The final contract object (the dict returned at pipeline.py lines 440-449;
`hints.suggestShare` is the constant `False` and is omitted here). -/
structure FinalResponse where
  assistant_text : String
  ui_view : String
  ui_active_tab : Option String
  suggest_tab : Option String
  chips : List String
  artifacts : ArtifactsOut

/-- `has_fit_brief` (pipeline.py lines 425-429): a present fit brief with at
least one section. -/
def hasFitFlag (fitBrief : Option FitBriefOut) : Bool :=
  match fitBrief with
  | some fb => !fb.sections.isEmpty
  | none => false

/-- `has_relevant_exp` (pipeline.py lines 430-434): a present relevant
experience with at least one group. -/
def hasRelFlag (relExp : Option (List RelevantGroupOut)) : Bool :=
  match relExp with
  | some gs => !gs.isEmpty
  | none => false

/-- The empty-split downgrade guard and final assembly, shared verbatim by the
two sanitizers (pipeline.py lines 421-449 = validator.py lines 151-178): when
the resolved view is `split`, the client was not already in split and no
artifact content survived, force `chat` and clear artifacts; otherwise emit
the resolved view with its artifacts. -/
def assembleFinal (assistant_text ui_view : String) (active_tab suggest_tab : Option String)
    (chips : List String) (client_already_split : Bool)
    (fitBrief : Option FitBriefOut) (relExp : Option (List RelevantGroupOut)) :
    FinalResponse :=
  let has_fit : Bool := hasFitFlag fitBrief
  let has_rel : Bool := hasRelFlag relExp
  if ui_view = "split" ∧ client_already_split = false ∧ (has_fit || has_rel) = false then
    { assistant_text := assistant_text, ui_view := "chat", ui_active_tab := none,
      suggest_tab := suggest_tab, chips := chips, artifacts := ⟨none, none⟩ }
  else
    { assistant_text := assistant_text, ui_view := ui_view, ui_active_tab := active_tab,
      suggest_tab := suggest_tab, chips := chips, artifacts := ⟨fitBrief, relExp⟩ }

/-- `ChatPipeline._sanitize_and_validate_response` (pipeline.py lines 305-449):
the full sanitize-and-repair pass, ending with the empty-split downgrade guard
(lines 421-438). Artifacts are computed only when the resolved view is
`split`; the guard then forces `chat` and clears artifacts when nothing
survived and the client was not already in split. -/
def pipelineSanitize (getItem : String → Option Json) (clientView : Option String)
    (clientSplit : Option Json) (routerUi routerHints answer_out : Json) : FinalResponse :=
  let assistant_text := sanitizeAssistantText answer_out
  let ui_raw := uiRawOf answer_out routerUi
  let ui_view := uiViewOfP ui_raw clientView
  let suggest_tab := suggestTabOf answer_out routerHints
  let chips := chipsOf answer_out
  let artifacts_raw := (let a := jget answer_out "artifacts"
    if isObj a then a else Json.obj [])
  let fitBrief := if ui_view = "split" then fitBriefOf artifacts_raw else none
  let relExp := if ui_view = "split" then
      relevantExperienceOf (pipelineItemOf getItem) artifacts_raw else none
  let active_tab := if ui_view = "split" then
      some (activeTabOfP ui_raw clientView clientSplit) else none
  let client_already_split : Bool := clientView = some "split"
  assembleFinal assistant_text ui_view active_tab suggest_tab chips client_already_split
    fitBrief relExp

/-- Active-tab resolution, validator variant (validator.py lines 58-65): the
fallback is `ctx.client_active_tab or "brief"` (a plain string field of the
agent context), re-checked against the valid tabs. -/
def activeTabOfV (ui_raw : Json) (clientActiveTab : String) : String :=
  let split_raw := if isObj ui_raw then jget ui_raw "split" else Json.obj []
  let a0 : Json := if isObj split_raw then jget split_raw "activeTab" else Json.str "brief"
  let a1 := if ¬ pyTruthy a0 ∨ ¬ tabValid a0 then
      Json.str (if clientActiveTab ≠ "" then clientActiveTab else "brief")
    else a0
  match a1 with
  | Json.str s => if s = "brief" ∨ s = "experience" then s else "brief"
  | _ => "brief"

/-- Metadata source selection (validator.py lines 126-129): Python
`payload.get(key) if payload else item.get(key)` — the store payload's value
when the payload is truthy, the model item's value otherwise. -/
def overrideVal (payload : Option Json) (itemv : Json) (key : String) : Json :=
  match payload with
  | some p => if pyTruthy p then jget p key else jget itemv key
  | none => jget itemv key

/-- The validator's surviving item record (validator.py lines 131-140), as a
function of the store payload and the raw model item. -/
def validatorItemFields (payload : Option Json) (itemv : Json)
    (slug item_type : String) : FinalRelevantItem :=
  { slug := slug
    type := item_type
    title := if pyTruthy (overrideVal payload itemv "title")
        then (pyStr (overrideVal payload itemv "title")).take 200 else ""
    company := if pyTruthy (overrideVal payload itemv "company")
        then some ((pyStr (overrideVal payload itemv "company")).take 200) else none
    role := if pyTruthy (overrideVal payload itemv "role")
        then some ((pyStr (overrideVal payload itemv "role")).take 200) else none
    period := if pyTruthy (overrideVal payload itemv "period")
        then some ((pyStr (overrideVal payload itemv "period")).take 100) else none
    bullets := bulletsOf itemv
    whyRelevant := if pyTruthy (jget itemv "whyRelevant")
        then some ((pyStr (jget itemv "whyRelevant")).take 500) else none }

/-- Relevant-experience item, validator variant (validator.py lines 110-140):
same slug/type/visibility gate as the pipeline, but the surviving item's
`title`/`company`/`role`/`period` come from the Qdrant payload ("source of
truth for metadata"); the model's fields are only reachable when the payload
is falsy, which the visibility gate excludes. -/
def validatorItemOf (getItem : String → Option Json) (item : Json) :
    Option FinalRelevantItem :=
  match item with
  | Json.obj kvs =>
      if ¬ (modelTypeOf (Json.obj kvs) = "experience"
          ∨ modelTypeOf (Json.obj kvs) = "project") then none
      else if ¬ isUiVisibleItem (getItem (modelSlugOf (Json.obj kvs))) then none
      else
        some (validatorItemFields (getItem (modelSlugOf (Json.obj kvs))) (Json.obj kvs)
          (modelSlugOf (Json.obj kvs)) (modelTypeOf (Json.obj kvs)))
  | _ => none

/-- `ValidatorAgent.run` (validator.py lines 24-184), as a function of the
context fields it reads. `clientView` is `ctx.client_view` (a plain string,
default `"chat"`); the optional `thinking` attachment (lines 181-182) does not
touch any contract field and is not modelled. -/
def validatorSanitize (getItem : String → Option Json) (clientView clientActiveTab : String)
    (routerUi routerHints answer_out : Json) : FinalResponse :=
  let assistant_text := sanitizeAssistantText answer_out
  let ui_raw := uiRawOf answer_out routerUi
  let ui_view := if clientView = "split" then "split" else uiViewBase ui_raw
  let suggest_tab := suggestTabOf answer_out routerHints
  let chips := chipsOf answer_out
  let artifacts_raw := (let a := jget answer_out "artifacts"
    if isObj a then a else Json.obj [])
  let fitBrief := if ui_view = "split" then fitBriefOf artifacts_raw else none
  let relExp := if ui_view = "split" then
      relevantExperienceOf (validatorItemOf getItem) artifacts_raw else none
  let active_tab := if ui_view = "split" then
      some (activeTabOfV ui_raw clientActiveTab) else none
  let client_already_split : Bool := clientView = "split"
  assembleFinal assistant_text ui_view active_tab suggest_tab chips client_already_split
    fitBrief relExp

/-- C1: whenever the client-declared view is `split`, the final validated
response's view is `split`, whatever the router or the model proposed — in
both the wired pipeline sanitizer and the agents-path validator. -/
theorem c1_view_monotonicity (getItemP getItemV : String → Option Json)
    (clientSplit : Option Json) (clientActiveTab : String)
    (routerUiP routerHintsP answerP routerUiV routerHintsV answerV : Json) :
    (pipelineSanitize getItemP (some "split") clientSplit routerUiP routerHintsP
        answerP).ui_view = "split"
    ∧ (validatorSanitize getItemV "split" clientActiveTab routerUiV routerHintsV
        answerV).ui_view = "split" := by
  constructor
  · simp [pipelineSanitize, uiViewOfP, assembleFinal]
  · simp [validatorSanitize, assembleFinal]

lemma assembleFinal_split_inv (a v : String) (act sg : Option String) (ch : List String)
    (cs : Bool) (fb : Option FitBriefOut) (re : Option (List RelevantGroupOut))
    (h : (assembleFinal a v act sg ch cs fb re).ui_view = "split") :
    (∃ x, (assembleFinal a v act sg ch cs fb re).artifacts.fitBrief = some x
        ∧ x.sections ≠ [])
    ∨ (∃ gs, (assembleFinal a v act sg ch cs fb re).artifacts.relevantExperience = some gs
        ∧ gs ≠ [])
    ∨ cs = true := by
  simp only [assembleFinal] at h ⊢
  by_cases hcond : (v = "split" ∧ cs = false ∧ (hasFitFlag fb || hasRelFlag re) = false)
  · rw [if_pos hcond] at h
    have h2 : ("chat" : String) = "split" := h
    exact absurd h2 (by decide)
  · rw [if_neg hcond] at h ⊢
    have hv : v = "split" := h
    by_cases hcs : cs = true
    · exact Or.inr (Or.inr hcs)
    · have hcsf : cs = false := by
        cases cs
        · rfl
        · exact absurd rfl hcs
      have hor : (hasFitFlag fb || hasRelFlag re) = true := by
        by_cases hb : (hasFitFlag fb || hasRelFlag re) = false
        · exact absurd ⟨hv, hcsf, hb⟩ hcond
        · exact (Bool.not_eq_false _).mp hb
      have hor2 : hasFitFlag fb = true ∨ hasRelFlag re = true := by simpa using hor
      rcases hor2 with hfit | hrel
      · cases fb with
        | none => exact absurd hfit (by decide)
        | some x =>
            refine Or.inl ⟨x, rfl, ?_⟩
            have : (!x.sections.isEmpty) = true := hfit
            simpa using this
      · cases re with
        | none => exact absurd hrel (by decide)
        | some gs =>
            refine Or.inr (Or.inl ⟨gs, rfl, ?_⟩)
            have : (!gs.isEmpty) = true := hrel
            simpa using this

/-- C2: a final `split` view implies a surviving fit-brief section, or a
surviving relevant-experience group, or a client already in `split` (in which
case split is kept with no artifacts) — for both sanitizers. -/
theorem c2_empty_split_downgrade_guard :
    (∀ (getItem : String → Option Json) (clientView : Option String)
        (clientSplit : Option Json) (routerUi routerHints answer_out : Json),
      (pipelineSanitize getItem clientView clientSplit routerUi routerHints
          answer_out).ui_view = "split" →
        (∃ fb, (pipelineSanitize getItem clientView clientSplit routerUi routerHints
            answer_out).artifacts.fitBrief = some fb ∧ fb.sections ≠ [])
        ∨ (∃ gs, (pipelineSanitize getItem clientView clientSplit routerUi routerHints
            answer_out).artifacts.relevantExperience = some gs ∧ gs ≠ [])
        ∨ clientView = some "split")
    ∧ (∀ (getItem : String → Option Json) (clientView clientActiveTab : String)
        (routerUi routerHints answer_out : Json),
      (validatorSanitize getItem clientView clientActiveTab routerUi routerHints
          answer_out).ui_view = "split" →
        (∃ fb, (validatorSanitize getItem clientView clientActiveTab routerUi routerHints
            answer_out).artifacts.fitBrief = some fb ∧ fb.sections ≠ [])
        ∨ (∃ gs, (validatorSanitize getItem clientView clientActiveTab routerUi routerHints
            answer_out).artifacts.relevantExperience = some gs ∧ gs ≠ [])
        ∨ clientView = "split") := by
  constructor
  · intro getItem clientView clientSplit routerUi routerHints answer_out h
    rcases assembleFinal_split_inv _ _ _ _ _ _ _ _ h with hfb | hre | hcs
    · exact Or.inl hfb
    · exact Or.inr (Or.inl hre)
    · exact Or.inr (Or.inr (of_decide_eq_true hcs))
  · intro getItem clientView clientActiveTab routerUi routerHints answer_out h
    rcases assembleFinal_split_inv _ _ _ _ _ _ _ _ h with hfb | hre | hcs
    · exact Or.inl hfb
    · exact Or.inr (Or.inl hre)
    · exact Or.inr (Or.inr (of_decide_eq_true hcs))

theorem c2_empty_split_downgrade_guard_witness :
    ((validatorSanitize (fun _ => none) "split" "brief" (Json.obj []) (Json.obj [])
        (Json.obj [])).ui_view = "split")
    ∧ ((∃ fb, (validatorSanitize (fun _ => none) "split" "brief" (Json.obj []) (Json.obj [])
          (Json.obj [])).artifacts.fitBrief = some fb ∧ fb.sections ≠ [])
      ∨ (∃ gs, (validatorSanitize (fun _ => none) "split" "brief" (Json.obj []) (Json.obj [])
          (Json.obj [])).artifacts.relevantExperience = some gs ∧ gs ≠ [])
      ∨ ("split" : String) = "split") :=
  ⟨by rfl,
    c2_empty_split_downgrade_guard.2 (fun _ => none) "split" "brief"
      (Json.obj []) (Json.obj []) (Json.obj []) (by rfl)⟩


/-- Store record for claim C4's inputs: the store-truth metadata for slug
`guardtime-pm`. -/
def c4Store : String → Option Json := fun s =>
  if s = "guardtime-pm" then
    some (Json.obj [("type", Json.str "experience"),
      ("title", Json.str "Technical Project Manager"),
      ("company", Json.str "Guardtime"),
      ("role", Json.str "Technical Project Manager"),
      ("period", Json.str "2019 - 2024"),
      ("uiVisible", Json.bool true)])
  else none

/-- Model output for claim C4's inputs: a relevant-experience item whose
asserted title/role/period differ from store truth. -/
def c4Answer : Json :=
  Json.obj [
    ("assistant", Json.obj [("text", Json.str "Here is the experience")]),
    ("ui", Json.obj [("view", Json.str "split"),
        ("split", Json.obj [("activeTab", Json.str "experience")])]),
    ("chips", Json.arr []),
    ("artifacts", Json.obj [
      ("relevantExperience", Json.obj [
        ("groups", Json.arr [
          Json.obj [("title", Json.str "Most relevant"),
            ("items", Json.arr [
              Json.obj [("slug", Json.str "guardtime-pm"),
                ("type", Json.str "experience"),
                ("title", Json.str "Hallucinated Title"),
                ("role", Json.str "Fake Role"),
                ("period", Json.str "1999"),
                ("bullets", Json.arr [Json.str "Led X"])]])]])])])]

set_option maxRecDepth 8192 in
/-- C4 counterexample: in the wired pipeline sanitizer
(`ChatPipeline._sanitize_and_validate_response`), the surviving item keeps the
model-asserted `title`/`role`/`period` (`"Hallucinated Title"`, `"Fake Role"`,
`"1999"`) even though the store record for the same slug says
`"Technical Project Manager"` / `"2019 - 2024"` — so the claim's "never from
the model-asserted item fields" fails on the code path main.py uses. -/
theorem c4_counterexample_pipeline_keeps_model_metadata :
    (pipelineSanitize c4Store (some "chat") none (Json.obj []) (Json.obj [])
        c4Answer).artifacts.relevantExperience
      = some [{ title := "Most relevant",
                items := [{ slug := "guardtime-pm", type := "experience",
                            title := "Hallucinated Title", company := none,
                            role := some "Fake Role", period := some "1999",
                            bullets := ["Led X"], whyRelevant := none }] }]
    ∧ jget ((c4Store "guardtime-pm").getD Json.null) "title"
        = Json.str "Technical Project Manager"
    ∧ jget ((c4Store "guardtime-pm").getD Json.null) "role"
        = Json.str "Technical Project Manager"
    ∧ jget ((c4Store "guardtime-pm").getD Json.null) "period"
        = Json.str "2019 - 2024" := by
  exact ⟨rfl, rfl, rfl, rfl⟩


lemma isUiVisibleItem_exists (o : Option Json) (h : isUiVisibleItem o = true) :
    ∃ p, o = some p ∧ pyTruthy p = true := by
  cases o with
  | none => exact absurd h (by decide)
  | some p =>
      refine ⟨p, rfl, ?_⟩
      cases hp : pyTruthy p with
      | false => simp [isUiVisibleItem, hp] at h
      | true => rfl

lemma groupOf_items_mem (itemOf : Json → Option FinalRelevantItem) (gj : Json)
    (g : RelevantGroupOut) (h : groupOf itemOf gj = some g)
    (it : FinalRelevantItem) (hit : it ∈ g.items) :
    ∃ j, itemOf j = some it := by
  cases gj with
  | null => exact absurd h (by simp [groupOf])
  | bool b => exact absurd h (by simp [groupOf])
  | num n => exact absurd h (by simp [groupOf])
  | str s => exact absurd h (by simp [groupOf])
  | arr xs => exact absurd h (by simp [groupOf])
  | obj kvs =>
      by_cases hie : (groupItemsOf itemOf (Json.obj kvs)).isEmpty = true
      · have hnone : groupOf itemOf (Json.obj kvs) = none := by
          simp [groupOf, hie]
        rw [hnone] at h
        exact absurd h (by simp)
      · simp only [groupOf] at h
        rw [if_neg hie] at h
        have hrec := Option.some.inj h
        have hit2 : it ∈ groupItemsOf itemOf (Json.obj kvs) := by
          rw [← hrec] at hit
          exact hit
        obtain ⟨j, -, hj⟩ := List.mem_filterMap.mp hit2
        exact ⟨j, hj⟩

lemma relevantExperienceOf_items_mem (itemOf : Json → Option FinalRelevantItem)
    (araw : Json) (gs : List RelevantGroupOut)
    (h : relevantExperienceOf itemOf araw = some gs)
    (g : RelevantGroupOut) (hg : g ∈ gs)
    (it : FinalRelevantItem) (hit : it ∈ g.items) :
    ∃ j, itemOf j = some it := by
  unfold relevantExperienceOf at h
  cases hre : (if isObj araw then jget araw "relevantExperience" else Json.obj []) with
  | obj kvs =>
      rw [hre] at h
      have h2 : (if (survivingGroupsOf itemOf (Json.obj kvs)).isEmpty = true then none
          else some (survivingGroupsOf itemOf (Json.obj kvs))) = some gs := h
      by_cases hie : (survivingGroupsOf itemOf (Json.obj kvs)).isEmpty = true
      · rw [if_pos hie] at h2
        exact absurd h2 (by simp)
      · rw [if_neg hie] at h2
        have hgs := Option.some.inj h2
        rw [← hgs] at hg
        obtain ⟨gj, -, hgj⟩ := List.mem_filterMap.mp hg
        exact groupOf_items_mem itemOf gj g hgj it hit
  | null => rw [hre] at h; exact absurd h (by simp)
  | bool b => rw [hre] at h; exact absurd h (by simp)
  | num n => rw [hre] at h; exact absurd h (by simp)
  | str s => rw [hre] at h; exact absurd h (by simp)
  | arr xs => rw [hre] at h; exact absurd h (by simp)

lemma validatorItemOf_metadata (getItem : String → Option Json) (j : Json)
    (it : FinalRelevantItem) (h : validatorItemOf getItem j = some it) :
    ∃ p, getItem it.slug = some p ∧ pyTruthy p = true
      ∧ it.title = (if pyTruthy (jget p "title")
          then (pyStr (jget p "title")).take 200 else "")
      ∧ it.company = (if pyTruthy (jget p "company")
          then some ((pyStr (jget p "company")).take 200) else none)
      ∧ it.role = (if pyTruthy (jget p "role")
          then some ((pyStr (jget p "role")).take 200) else none)
      ∧ it.period = (if pyTruthy (jget p "period")
          then some ((pyStr (jget p "period")).take 100) else none) := by
  cases j with
  | null => exact absurd h (by simp [validatorItemOf])
  | bool b => exact absurd h (by simp [validatorItemOf])
  | num n => exact absurd h (by simp [validatorItemOf])
  | str s => exact absurd h (by simp [validatorItemOf])
  | arr xs => exact absurd h (by simp [validatorItemOf])
  | obj kvs =>
      by_cases h1 : ¬ (modelTypeOf (Json.obj kvs) = "experience"
          ∨ modelTypeOf (Json.obj kvs) = "project")
      · have hnone : validatorItemOf getItem (Json.obj kvs) = none := by
          simp only [validatorItemOf]
          rw [if_pos h1]
        rw [hnone] at h
        exact absurd h (by simp)
      · by_cases h2 : ¬ isUiVisibleItem (getItem (modelSlugOf (Json.obj kvs))) = true
        · have hnone : validatorItemOf getItem (Json.obj kvs) = none := by
            simp only [validatorItemOf]
            rw [if_neg h1, if_pos h2]
          rw [hnone] at h
          exact absurd h (by simp)
        · have hvis : isUiVisibleItem (getItem (modelSlugOf (Json.obj kvs))) = true :=
            not_not.mp h2
          obtain ⟨p, hp, hpt⟩ := isUiVisibleItem_exists _ hvis
          have hform : validatorItemOf getItem (Json.obj kvs)
              = some (validatorItemFields (getItem (modelSlugOf (Json.obj kvs)))
                  (Json.obj kvs) (modelSlugOf (Json.obj kvs))
                  (modelTypeOf (Json.obj kvs))) := by
            simp only [validatorItemOf]
            rw [if_neg h1, if_neg h2]
          rw [hform] at h
          have hrec := Option.some.inj h
          have hov : ∀ key, overrideVal (getItem (modelSlugOf (Json.obj kvs)))
              (Json.obj kvs) key = jget p key := by
            intro key
            rw [hp]
            simp [overrideVal, hpt]
          refine ⟨p, ?_, hpt, ?_, ?_, ?_, ?_⟩
          · have hslug : it.slug = modelSlugOf (Json.obj kvs) := by
              rw [← hrec]
              rfl
            rw [hslug]
            exact hp
          · rw [← hrec]
            show (if pyTruthy (overrideVal (getItem (modelSlugOf (Json.obj kvs)))
                (Json.obj kvs) "title") then (pyStr (overrideVal
                (getItem (modelSlugOf (Json.obj kvs))) (Json.obj kvs) "title")).take 200
                else "") = _
            rw [hov]
          · rw [← hrec]
            show (if pyTruthy (overrideVal (getItem (modelSlugOf (Json.obj kvs)))
                (Json.obj kvs) "company") then some ((pyStr (overrideVal
                (getItem (modelSlugOf (Json.obj kvs))) (Json.obj kvs) "company")).take 200)
                else none) = _
            rw [hov]
          · rw [← hrec]
            show (if pyTruthy (overrideVal (getItem (modelSlugOf (Json.obj kvs)))
                (Json.obj kvs) "role") then some ((pyStr (overrideVal
                (getItem (modelSlugOf (Json.obj kvs))) (Json.obj kvs) "role")).take 200)
                else none) = _
            rw [hov]
          · rw [← hrec]
            show (if pyTruthy (overrideVal (getItem (modelSlugOf (Json.obj kvs)))
                (Json.obj kvs) "period") then some ((pyStr (overrideVal
                (getItem (modelSlugOf (Json.obj kvs))) (Json.obj kvs) "period")).take 100)
                else none) = _
            rw [hov]

lemma assembleFinal_relExp_some (a v : String) (act sg : Option String) (ch : List String)
    (cs : Bool) (fb : Option FitBriefOut) (re : Option (List RelevantGroupOut))
    (gs : List RelevantGroupOut)
    (h : (assembleFinal a v act sg ch cs fb re).artifacts.relevantExperience = some gs) :
    re = some gs := by
  simp only [assembleFinal] at h
  by_cases hcond : (v = "split" ∧ cs = false ∧ (hasFitFlag fb || hasRelFlag re) = false)
  · rw [if_pos hcond] at h
    have h2 : (none : Option (List RelevantGroupOut)) = some gs := h
    exact absurd h2 (by simp)
  · rw [if_neg hcond] at h
    exact h

/-- C4 as amended: the store-truth metadata override holds in the agents-path
`ValidatorAgent.run` — every surviving relevant-experience item's title,
company, role and period are computed from the store record looked up by the
item's slug, never from the model-asserted item fields. The wired
`ChatPipeline._sanitize_and_validate_response` instead copies the model's
`title`/`role`/`period` (see the counterexample). -/
theorem c4_amended_validator_metadata_store_truth (getItem : String → Option Json)
    (clientView clientActiveTab : String) (routerUi routerHints answer_out : Json)
    (gs : List RelevantGroupOut)
    (hgs : (validatorSanitize getItem clientView clientActiveTab routerUi routerHints
        answer_out).artifacts.relevantExperience = some gs)
    (g : RelevantGroupOut) (hg : g ∈ gs) (it : FinalRelevantItem) (hit : it ∈ g.items) :
    ∃ p, getItem it.slug = some p ∧ pyTruthy p = true
      ∧ it.title = (if pyTruthy (jget p "title")
          then (pyStr (jget p "title")).take 200 else "")
      ∧ it.company = (if pyTruthy (jget p "company")
          then some ((pyStr (jget p "company")).take 200) else none)
      ∧ it.role = (if pyTruthy (jget p "role")
          then some ((pyStr (jget p "role")).take 200) else none)
      ∧ it.period = (if pyTruthy (jget p "period")
          then some ((pyStr (jget p "period")).take 100) else none) := by
  have hre := assembleFinal_relExp_some _ _ _ _ _ _ _ _ _ hgs
  by_cases hview : (if clientView = "split" then "split"
      else uiViewBase (uiRawOf answer_out routerUi)) = "split"
  · rw [if_pos hview] at hre
    obtain ⟨j, hj⟩ := relevantExperienceOf_items_mem _ _ _ hre g hg it hit
    exact validatorItemOf_metadata getItem j it hj
  · rw [if_neg hview] at hre
    exact absurd hre (by simp)

/-- The surviving item the validator produces on the C4 inputs: all metadata
from the store record. -/
def c4StoreItem : FinalRelevantItem :=
  { slug := "guardtime-pm", type := "experience",
    title := "Technical Project Manager",
    company := some "Guardtime",
    role := some "Technical Project Manager",
    period := some "2019 - 2024",
    bullets := ["Led X"], whyRelevant := none }

def c4StoreGroup : RelevantGroupOut := { title := "Most relevant", items := [c4StoreItem] }

set_option maxRecDepth 8192 in
theorem c4_amended_validator_metadata_store_truth_witness :
    ((validatorSanitize c4Store "chat" "brief" (Json.obj []) (Json.obj [])
        c4Answer).artifacts.relevantExperience = some [c4StoreGroup])
    ∧ ∃ p, c4Store "guardtime-pm" = some p ∧ pyTruthy p = true
        ∧ ("Technical Project Manager" : String) = (if pyTruthy (jget p "title")
            then (pyStr (jget p "title")).take 200 else "")
        ∧ (some "Guardtime" : Option String) = (if pyTruthy (jget p "company")
            then some ((pyStr (jget p "company")).take 200) else none)
        ∧ (some "Technical Project Manager" : Option String) = (if pyTruthy (jget p "role")
            then some ((pyStr (jget p "role")).take 200) else none)
        ∧ (some "2019 - 2024" : Option String) = (if pyTruthy (jget p "period")
            then some ((pyStr (jget p "period")).take 100) else none) :=
  ⟨rfl,
    c4_amended_validator_metadata_store_truth c4Store "chat" "brief"
      (Json.obj []) (Json.obj []) c4Answer [c4StoreGroup] rfl
      c4StoreGroup (List.mem_singleton.mpr rfl)
      c4StoreItem (List.mem_singleton.mpr rfl)⟩


end ResumeWeb
